import Mathlib

/-!
Verification development for the transaction-manager email pipeline.

The Python sources (main.py, outlook.py, gmail.py,
extract_and_upload_data/update_data.py, config files) are shallowly embedded
below.  Conventions used throughout:

* Python strings are Lean `String`s; the hand-rolled matchers below implement
  the exact leftmost-first semantics of the specific `re` patterns compiled at
  the top of each source file (the patterns are simple enough that their
  backtracking behaviour can be replayed deterministically; each matcher's doc
  comment records the pattern it implements).
* Python `float` amounts are modelled as `ℚ` (the decimal numerals that occur
  are exact in either representation).
* Python exceptions are modelled with `Except PyExc`; code regions wrapped in
  `try/except` in the source become total (`Option`) exactly where the source
  catches, and remain `Except` where an exception would propagate.
* Library calls that are external collaborators (BeautifulSoup text
  extraction, base64 decoding, pandas datetime parsing, the tz database) are
  parameters collected in the `Ext` structure; every pipeline function takes
  an `Ext`.  Timestamps are minute counts (`Int`).
-/

namespace TMD

/-- Python exception classes that occur in the embedded code paths. -/
inductive PyExc
  | keyError
  | indexError
  | attrError
  | valueError
  | typeError
deriving DecidableEq, Repr

instance {ε α : Type} [DecidableEq ε] [DecidableEq α] : DecidableEq (Except ε α)
  | .ok a, .ok b =>
    if h : a = b then isTrue (by rw [h])
    else isFalse (by intro hh; cases hh; exact h rfl)
  | .ok _, .error _ => isFalse (by intro h; cases h)
  | .error _, .ok _ => isFalse (by intro h; cases h)
  | .error e, .error f =>
    if h : e = f then isTrue (by rw [h])
    else isFalse (by intro hh; cases hh; exact h rfl)

/-- The regex character class [0-9,.] used by every money pattern. -/
def isMoneyChar (c : Char) : Bool := c.isDigit || c = ',' || c = '.'

/-- Python regex \s (ASCII whitespace as it occurs in the processed text). -/
def isPyWs (c : Char) : Bool :=
  c = ' ' || c = '\t' || c = '\n' || c = '\r' || c = '\x0b' || c = '\x0c'

/-- Python regex \w restricted to the ASCII texts this pipeline processes. -/
def isWordChar (c : Char) : Bool := c.isAlphanum || c = '_'

/-- Character class of the local part of SENDER_RX: [a-zA-Z0-9_.+-]. -/
def isLocalChar (c : Char) : Bool :=
  c.isAlphanum || c = '_' || c = '.' || c = '+' || c = '-'

/-- Character class [a-zA-Z0-9-] (first domain label of SENDER_RX). -/
def isDomChar (c : Char) : Bool := c.isAlphanum || c = '-'

/-- Character class [a-zA-Z0-9-.] (domain tail of SENDER_RX). -/
def isDomDotChar (c : Char) : Bool := c.isAlphanum || c = '-' || c = '.'

/-- Character class [\w\.-] of the gmail sender regex. -/
def isGmailEmailChar (c : Char) : Bool := isWordChar c || c = '.' || c = '-'

/-- Scan a text left to right and return the first position where the
single-position matcher `m` succeeds (the leftmost-match rule of
`re.findall`/`re.search`). -/
def scanFirst {α : Type} (m : List Char → Option α) : List Char → Option α
  | [] => none
  | c :: rest =>
    match m (c :: rest) with
    | some r => some r
    | none => scanFirst m rest

/-- Single-position matcher for MONEY = (US)?\$([0-9,.]+).  At a given
position the optional US marker is tried first, then the bare $; the numeral
group is the maximal nonempty run of [0-9,.]. -/
def matchMoneyAt : List Char → Option (String × String)
  | 'U' :: 'S' :: '$' :: rest =>
    let run := (rest.span isMoneyChar).1
    if run.isEmpty then none else some ("US", run.asString)
  | '$' :: rest =>
    let run := (rest.span isMoneyChar).1
    if run.isEmpty then none else some ("", run.asString)
  | _ => none

/-- First match of the shared MONEY pattern, as MONEY.findall(content)[0]. -/
def moneyFirst (s : String) : Option (String × String) :=
  scanFirst matchMoneyAt s.data

/-- Single-position matcher for the outlook/update_data TC_PAYMENT_MONEY
pattern (Monto) \$([0-9,.]+). -/
def matchMontoAt : List Char → Option (String × String)
  | 'M' :: 'o' :: 'n' :: 't' :: 'o' :: ' ' :: '$' :: rest =>
    let run := (rest.span isMoneyChar).1
    if run.isEmpty then none else some ("Monto", run.asString)
  | _ => none

/-- First match of (Monto) \$([0-9,.]+). -/
def montoMoneyFirst (s : String) : Option (String × String) :=
  scanFirst matchMontoAt s.data

/-- Single-position matcher for the gmail TC_PAYMENT_MONEY pattern
(USD)\s([0-9,.]+)|\$([0-9,.]+); findall returns a 3-tuple of groups. -/
def matchTcPayGAt : List Char → Option (String × String × String)
  | 'U' :: 'S' :: 'D' :: c :: rest =>
    if isPyWs c then
      let run := (rest.span isMoneyChar).1
      if run.isEmpty then none else some ("USD", run.asString, "")
    else none
  | '$' :: rest =>
    let run := (rest.span isMoneyChar).1
    if run.isEmpty then none else some ("", "", run.asString)
  | _ => none

/-- First match of the gmail TC_PAYMENT_MONEY alternation. -/
def tcPaymentMoneyGFirst (s : String) : Option (String × String × String) :=
  scanFirst matchTcPayGAt s.data

/-- Single-position matcher for TC_TIMESTAMP =
(\d{2}/\d{2}/\d{4}\s\d{2}:\d{2}); returns the 16-character match. -/
def matchTsAt : List Char → Option String
  | a :: b :: '/' :: c :: d :: '/' :: e :: f :: g :: h :: w ::
      i :: j :: ':' :: k :: l :: _ =>
    if a.isDigit && b.isDigit && c.isDigit && d.isDigit && e.isDigit &&
       f.isDigit && g.isDigit && h.isDigit && isPyWs w && i.isDigit &&
       j.isDigit && k.isDigit && l.isDigit then
      some (String.mk [a, b, '/', c, d, '/', e, f, g, h, w, i, j, ':', k, l])
    else none
  | _ => none

/-- First match of TC_TIMESTAMP, as TC_TIMESTAMP.findall(content)[0]. -/
def tcTimestampFirst (s : String) : Option String :=
  scanFirst matchTsAt s.data

/-- Lookahead used by the lazy group of TC_REASON: does the text at this
position start with " el " followed by \d{2}/\d{2}/\d{4}? -/
def elDateAt : List Char → Bool
  | ' ' :: 'e' :: 'l' :: ' ' :: p :: q :: '/' :: r :: s :: '/' ::
      t :: u :: v :: w :: _ =>
    p.isDigit && q.isDigit && r.isDigit && s.isDigit && t.isDigit &&
    u.isDigit && v.isDigit && w.isDigit
  | _ => false

/-- Lazy capture of TC_REASON's (.*?): grow the capture one character at a
time (never across a newline, since . does not match \n) until the
" el date" lookahead succeeds. -/
def reasonCapture (acc : List Char) (rest : List Char) : Option String :=
  if elDateAt rest then some acc.reverse.asString
  else
    match rest with
    | [] => none
    | ch :: more => if ch = '\n' then none else reasonCapture (ch :: acc) more

/-- Single-position matcher for TC_REASON =
\*{4}\d{4} en (.*?) el \d{2}/\d{2}/\d{4}. -/
def matchReasonAt : List Char → Option String
  | '*' :: '*' :: '*' :: '*' :: a :: b :: c :: d :: ' ' :: 'e' :: 'n' :: ' ' :: rest =>
    if a.isDigit && b.isDigit && c.isDigit && d.isDigit then
      reasonCapture [] rest
    else none
  | _ => none

/-- First match of TC_REASON, as TC_REASON.findall(content)[0]. -/
def tcReasonFirst (s : String) : Option String :=
  scanFirst matchReasonAt s.data

/-- Second alternative of SENDER_RX: \<(.*?)\> (lazy capture up to the first
closing angle bracket on the same line). -/
def matchAngleAt : List Char → Option (String × String)
  | '<' :: rest =>
    let p := rest.span (fun c => !(c = '>' || c = '\n'))
    match p.2 with
    | '>' :: _ => some ("", p.1.asString)
    | _ => none
  | _ => none

/-- Single-position matcher for SENDER_RX =
From:\s*([a-zA-Z0-9_.+-]+@[a-zA-Z0-9-]+\.[a-zA-Z0-9-.]+)|\<(.*?)\>.
The character classes make the email alternative deterministic (no
backtracking is ever needed), so the match is computed by three greedy runs. -/
def matchSenderAt (l : List Char) : Option (String × String) :=
  match l with
  | 'F' :: 'r' :: 'o' :: 'm' :: ':' :: rest =>
    let r1 := (rest.span isPyWs).2
    let p1 := r1.span isLocalChar
    match p1.2 with
    | '@' :: r3 =>
      let p2 := r3.span isDomChar
      match p2.2 with
      | '.' :: r5 =>
        let tl := (r5.span isDomDotChar).1
        if p1.1.isEmpty || p2.1.isEmpty || tl.isEmpty then matchAngleAt l
        else
          some (p1.1.asString ++ "@" ++ p2.1.asString ++ "." ++ tl.asString, "")
      | _ => matchAngleAt l
    | _ => matchAngleAt l
  | _ => matchAngleAt l

/-- First match of SENDER_RX, as SENDER_RX.findall(content)[0]; the pair is
the (group1, group2) tuple that findall returns. -/
def senderRxFirst (s : String) : Option (String × String) :=
  scanFirst matchSenderAt s.data

/-- Backtracking helper for the gmail sender regex: largest index j ≥ 1 into
`run` such that run[j] = '.' and at least two \w characters follow (the
longest-first split the regex engine commits to for [\w\.-]+\.\w{2,}). -/
def dotSplitGo (run : List Char) : Nat → Option Nat
  | 0 => none
  | j + 1 =>
    if run.get? (j + 1) = some '.' &&
       2 ≤ ((run.drop (j + 2)).span isWordChar).1.length then
      some (j + 1)
    else dotSplitGo run j

/-- Single-position matcher for the gmail parse_sender regex
[\w\.-]+@[\w\.-]+\.\w{2,}; returns match.group(0). -/
def matchGmailEmailAt (l : List Char) : Option String :=
  let p1 := l.span isGmailEmailChar
  if p1.1.isEmpty then none
  else
    match p1.2 with
    | '@' :: r2 =>
      let run := (r2.span isGmailEmailChar).1
      match dotSplitGo run run.length with
      | some j =>
        let t2 := ((run.drop (j + 1)).span isWordChar).1
        some (p1.1.asString ++ "@" ++ (run.take j).asString ++ "." ++ t2.asString)
      | none => none
    | _ => none

/-- re.search of the gmail sender regex over a From header. -/
def gmailEmailSearch (s : String) : Option String :=
  scanFirst matchGmailEmailAt s.data

/-- Lookahead for the end of the lazy group of the outlook
CC_PAYMENT_DESTINATION pattern: \s?Rut (greedy optional whitespace, then the
literal Rut). -/
def rutAt : List Char → Bool
  | 'R' :: 'u' :: 't' :: _ => true
  | c :: 'R' :: 'u' :: 't' :: _ => isPyWs c
  | _ => false

/-- Lazy capture for CC_PAYMENT_DESTINATION's (.*?): shortest same-line
capture after which \s?Rut matches. -/
def destCapture (acc : List Char) (rest : List Char) : Option String :=
  if rutAt rest then some acc.reverse.asString
  else
    match rest with
    | [] => none
    | ch :: more => if ch = '\n' then none else destCapture (ch :: acc) more

/-- Single-position matcher for the outlook CC_PAYMENT_DESTINATION pattern
Nombre( y Apellido)?(.*?)\s?Rut; the pair is the findall group tuple.  If the
optional group matches but no Rut terminator can be reached, the engine
retries with the group empty. -/
def matchDestAt : List Char → Option (String × String)
  | 'N' :: 'o' :: 'm' :: 'b' :: 'r' :: 'e' :: rest =>
    match rest with
    | ' ' :: 'y' :: ' ' :: 'A' :: 'p' :: 'e' :: 'l' :: 'l' :: 'i' :: 'd' :: 'o' :: rest2 =>
      match destCapture [] rest2 with
      | some g2 => some (" y Apellido", g2)
      | none => (destCapture [] rest).map (fun g2 => ("", g2))
    | _ => (destCapture [] rest).map (fun g2 => ("", g2))
  | _ => none

/-- First match of the outlook CC_PAYMENT_DESTINATION pattern. -/
def ccPaymentDestFirst (s : String) : Option (String × String) :=
  scanFirst matchDestAt s.data

/-- Lookahead for the end of the lazy group of CC_PAYMENT_SOURCE: the
literal " Destino". -/
def destinoAt : List Char → Bool
  | ' ' :: 'D' :: 'e' :: 's' :: 't' :: 'i' :: 'n' :: 'o' :: _ => true
  | _ => false

/-- Lazy capture for CC_PAYMENT_SOURCE's .*? part. -/
def sourceCapture (acc : List Char) (rest : List Char) : Option String :=
  if destinoAt rest then some acc.reverse.asString
  else
    match rest with
    | [] => none
    | ch :: more => if ch = '\n' then none else sourceCapture (ch :: acc) more

/-- Single-position matcher for the update_data CC_PAYMENT_SOURCE pattern
(\d.*?) Destino. -/
def matchSourceAt : List Char → Option String
  | d :: rest => if d.isDigit then sourceCapture [d] rest else none
  | _ => none

/-- First match of CC_PAYMENT_SOURCE, as findall(content)[0]. -/
def ccPaymentSourceFirst (s : String) : Option String :=
  scanFirst matchSourceAt s.data

/-- Lookahead for the update_data CC_PAYMENT_DESTINATION tail:
" Rut " followed by \d+\-\d; returns the second group on success. -/
def rutGroupAt : List Char → Option String
  | ' ' :: 'R' :: 'u' :: 't' :: ' ' :: rest =>
    let p := rest.span Char.isDigit
    if p.1.isEmpty then none
    else
      match p.2 with
      | '-' :: d :: _ =>
        if d.isDigit then some (p.1.asString ++ "-" ++ String.mk [d]) else none
      | _ => none
  | _ => none

/-- Lazy capture for the update_data CC_PAYMENT_DESTINATION (.*?) group. -/
def destUCapture (acc : List Char) (rest : List Char) : Option (String × String) :=
  match rutGroupAt rest with
  | some g2 => some (acc.reverse.asString, g2)
  | none =>
    match rest with
    | [] => none
    | ch :: more => if ch = '\n' then none else destUCapture (ch :: acc) more

/-- Single-position matcher for the update_data CC_PAYMENT_DESTINATION
pattern Destino Nombre y Apellido (.*?) Rut (\d+\-\d). -/
def matchDestUAt : List Char → Option (String × String)
  | 'D' :: 'e' :: 's' :: 't' :: 'i' :: 'n' :: 'o' :: ' ' ::
    'N' :: 'o' :: 'm' :: 'b' :: 'r' :: 'e' :: ' ' :: 'y' :: ' ' ::
    'A' :: 'p' :: 'e' :: 'l' :: 'l' :: 'i' :: 'd' :: 'o' :: ' ' :: rest =>
    destUCapture [] rest
  | _ => none

/-- First match of the update_data CC_PAYMENT_DESTINATION pattern. -/
def ccPaymentDestUFirst (s : String) : Option (String × String) :=
  scanFirst matchDestUAt s.data

/-- Character class [A-Za-z\s] of TRANSFER_DEST_T1. -/
def isT1Char (c : Char) : Bool := c.isAlpha || isPyWs c

/-- Single-position matcher for TRANSFER_DEST_T1 = fondos a ([A-Za-z\s]+). -/
def matchT1At : List Char → Option String
  | 'f' :: 'o' :: 'n' :: 'd' :: 'o' :: 's' :: ' ' :: 'a' :: ' ' :: rest =>
    let run := (rest.span isT1Char).1
    if run.isEmpty then none else some run.asString
  | _ => none

/-- First match of TRANSFER_DEST_T1. -/
def transferDestT1First (s : String) : Option String :=
  scanFirst matchT1At s.data

def isCrLf (c : Char) : Bool := c = '\r' || c = '\n'

/-- Single-position matcher for TRANSFER_DEST_T2 =
Nombre y Apellido\s+([^\r\n]+).  The greedy \s+ takes the maximal whitespace
run; if nothing follows it backtracks just far enough to hand the capture the
last whitespace character that is not \r or \n. -/
def matchT2At : List Char → Option String
  | 'N' :: 'o' :: 'm' :: 'b' :: 'r' :: 'e' :: ' ' :: 'y' :: ' ' ::
    'A' :: 'p' :: 'e' :: 'l' :: 'l' :: 'i' :: 'd' :: 'o' :: rest =>
    let p := rest.span isPyWs
    if p.1.isEmpty then none
    else
      match p.2 with
      | [] =>
        match p.1.reverse.dropWhile isCrLf with
        | [] => none
        | c :: _ => some (String.mk [c])
      | _ :: _ => some ((p.2.span (fun x => !isCrLf x)).1.asString)
  | _ => none

/-- First match of TRANSFER_DEST_T2. -/
def transferDestT2First (s : String) : Option String :=
  scanFirst matchT2At s.data

/-- List-level prefix test used by the substring helpers. -/
def startsWithL : List Char → List Char → Bool
  | _, [] => true
  | [], _ :: _ => false
  | a :: as, b :: bs => a = b && startsWithL as bs

/-- Python `sub in s` substring containment. -/
def containsL (l : List Char) (sub : List Char) : Bool :=
  if startsWithL l sub then true
  else
    match l with
    | [] => false
    | _ :: rest => containsL rest sub

/-- Python `sub in s` on strings. -/
def pyContains (s sub : String) : Bool := containsL s.data sub.data

/-- Python `s.startswith(p)`. -/
def pyStartsWith (s p : String) : Bool := startsWithL s.data p.data

/-- Python str.lower restricted to the characters that occur in the
processed texts (ASCII letters and the accented letters of the configured
subjects, which are already lowercase except for É). -/
def pyLowerChar (c : Char) : Char :=
  if 'A' ≤ c && c ≤ 'Z' then Char.ofNat (c.toNat + 32)
  else if c = 'É' then 'é'
  else c

/-- Python str.lower on strings. -/
def pyLower (s : String) : String := (s.data.map pyLowerChar).asString

/-- Python str.strip() (both ends, default whitespace). -/
def pyStrip (s : String) : String :=
  ((s.data.dropWhile isPyWs).reverse.dropWhile isPyWs).reverse.asString

/-- Worker for the column-wide replace(r'\s+', ' '): prevWs records whether
the previous character was inside a whitespace run already replaced. -/
def collapseWsGo (prevWs : Bool) : List Char → List Char
  | [] => []
  | c :: rest =>
    if isPyWs c then
      if prevWs then collapseWsGo true rest
      else ' ' :: collapseWsGo true rest
    else c :: collapseWsGo false rest

/-- The column-wide replace(r'\s+', ' ') applied to gmail contents: every
maximal whitespace run becomes a single space. -/
def collapseWsL (l : List Char) : List Char := collapseWsGo false l

/-- Whitespace collapsing on strings. -/
def collapseWs (s : String) : String := (collapseWsL s.data).asString

/-- Value of a digit run read in base 10. -/
def digitsToNat (l : List Char) : Nat :=
  l.foldl (fun n c => n * 10 + (c.toNat - 48)) 0

/-- Python float() on the numerals this pipeline produces (digits with at
most one decimal point; anything else raises ValueError, modelled none). -/
def parseFloatQ (s : String) : Option ℚ :=
  let l := s.data
  let p := l.span (fun c => c ≠ '.')
  if !p.1.all Char.isDigit then none
  else
    match p.2 with
    | [] => if p.1.isEmpty then none else some (digitsToNat p.1 : ℚ)
    | _ :: fp =>
      if fp.all Char.isDigit && !(p.1.isEmpty && fp.isEmpty) then
        some ((digitsToNat p.1 : ℚ) + (digitsToNat fp : ℚ) / (10 ^ fp.length : ℚ))
      else none

/-- Amount normalization shared by every variant:
s.replace('.', '').replace(',', '.'). -/
def normalizeAmount (s : String) : String :=
  ((s.data.filter (fun c => c ≠ '.')).map
    (fun c => if c = ',' then '.' else c)).asString

/-- gmail.py clean_amount / _parse_amount, and the inline
float(raw.replace('.', '').replace(',', '.')) of the other variants. -/
def clean_amount (s : String) : Option ℚ :=
  parseFloatQ (normalizeAmount s)

/-! ### Calendar validation for pd.to_datetime(s, format='%d/%m/%Y %H:%M') -/

def isLeapYear (y : Nat) : Bool := (y % 4 = 0 && y % 100 ≠ 0) || y % 400 = 0

def daysInMonth (y m : Nat) : Nat :=
  if m = 2 then (if isLeapYear y then 29 else 28)
  else if m = 4 || m = 6 || m = 9 || m = 11 then 30
  else 31

/-- Two-digit numeral value. -/
def d2 (a b : Char) : Nat := (a.toNat - 48) * 10 + (b.toNat - 48)

/-- A naive datetime as produced from a DD/MM/YYYY HH:MM body timestamp. -/
structure NaiveDT where
  year : Nat
  month : Nat
  day : Nat
  hour : Nat
  minute : Nat
deriving DecidableEq, Repr

/-- pd.to_datetime(s, format='%d/%m/%Y %H:%M'): strict shape plus calendar
validation; an invalid date raises (modelled none). -/
def parseDMYHM (s : String) : Option NaiveDT :=
  match s.data with
  | [a, b, '/', c, dd, '/', e, f, g, hh, w, i, j, ':', k, m] =>
    if a.isDigit && b.isDigit && c.isDigit && dd.isDigit && e.isDigit &&
       f.isDigit && g.isDigit && hh.isDigit && isPyWs w && i.isDigit &&
       j.isDigit && k.isDigit && m.isDigit then
      let day := d2 a b
      let mon := d2 c dd
      let yr := (e.toNat - 48) * 1000 + (f.toNat - 48) * 100 +
                (g.toNat - 48) * 10 + (hh.toNat - 48)
      let hr := d2 i j
      let mi := d2 k m
      if 1 ≤ mon && mon ≤ 12 && 1 ≤ day && day ≤ daysInMonth yr mon &&
         hr < 24 && mi < 60 then
        some ⟨yr, mon, day, hr, mi⟩
      else none
    else none
  | _ => none

/-! ### Shared data model -/

/-- A transaction timestamp as stored in the dataframe column.  The two
constructors keep the representation closest to how each code path computes
the naive value: parsed from a DD/MM/YYYY HH:MM string in the body, or
derived from a header timestamp (a minute count) after dropping timezone
information.  No claim compares values across the two constructors. -/
inductive TxTime where
  | bodyLocal (dt : NaiveDT)
  | headerNaive (minutes : Int)
deriving DecidableEq, Repr

/-- The dynamically-typed 'amount' cell of the outlook dataframe: every
branch stores float(...) except the card-payment branch, which stores the raw
matched string. -/
inductive AmountVal where
  | num (q : ℚ)
  | str (s : String)
deriving DecidableEq, Repr

/-- External library collaborators, passed explicitly to every embedded
pipeline function.  `none` marks the inputs on which the library call would
raise. -/
structure Ext where
  /-- BeautifulSoup(raw, 'html.parser').find('body').text; none models the
  AttributeError when the document has no body element. -/
  findBodyText : String → Option String
  /-- BeautifulSoup(html, 'lxml') followed by soup.text (total). -/
  soupText : String → String
  /-- base64.urlsafe_b64decode followed by utf-8 decoding. -/
  b64decodeUtf8 : String → Option String
  /-- pd.to_datetime(s, utc=True) returning UTC minutes. -/
  pdParseUtc : String → Option Int
  /-- pd.to_datetime(s) on envelope timestamps, returning UTC minutes. -/
  pdParse : String → Option Int
  /-- The tz database: UTC offset (minutes) of America/Santiago at a given
  UTC instant. -/
  santiagoOffset : Int → Int

/-! ### Static configuration (config.py) -/

/-- config.py SENDER_EMAIL: the allow-list of notification senders. -/
def SENDER_EMAIL : List String :=
  ["enviodigital@bancochile.cl", "serviciodetransferencias@bancochile.cl",
   "enviodigital@bancoedwards.cl"]

/-- config.py TC_SUBJECTS: the card-purchase subject strings. -/
def TC_SUBJECTS : List String :=
  ["Giro con Tarjeta de Débito",
   "Compra con Tarjeta de Crédito",
   "Cargo en Cuenta",
   "Avance con Tarjeta de Crédito"]

/-- A persisted row of the transactions table, restricted to the columns the
dedup read paths consult. -/
structure StoredRow where
  Id : String
  user_email : String
deriving DecidableEq, Repr

/-- The dedup filter common to every variant:
transactions_df.loc[~transactions_df['Id'].isin(previous['Id'])]. -/
def dedupFilter {ρ : Type} (getId : ρ → String) (rows : List ρ)
    (prev : List String) : List ρ :=
  rows.filter (fun r => decide (getId r ∉ prev))

/-! ### Gmail payload part tree and body search (gmail.py) -/

/-- A node of the gmail message payload: mimeType, the body's data field
(none when absent), and the list of sub-parts (an absent parts key behaves
exactly like an empty list). -/
inductive Part where
  | mk (mimeType : Option String) (data : Option String) (parts : List Part)

/-- The node test of the body search: mimeType is text/html or text/plain
and the body carries a data field.  (A node has a single mimeType, so the
html check and the plain-text fallback of the source reduce to this one
disjunction at each node.) -/
def partMatches (m : Option String) (d : Option String) : Bool :=
  (m = some "text/html" || m = some "text/plain") && d.isSome

/-- Python truthiness of an optional string: None and the empty string are
falsy. -/
def pyTruthyStr : Option String → Bool
  | none => false
  | some s => !s.isEmpty

mutual
/-- gmail.py _get_body_data: return this node's data when the node matches,
else search the sub-parts, skipping falsy results. -/
def getBodyData : Part → Option String
  | .mk m d ps => if partMatches m d then d else getBodyDataList ps

/-- The for-loop of _get_body_data over sub-parts: the first truthy result
is returned; falsy results (None or an empty data string) are passed over. -/
def getBodyDataList : List Part → Option String
  | [] => none
  | p :: ps =>
    let r := getBodyData p
    if pyTruthyStr r then r else getBodyDataList ps
end

mutual
/-- The specified result of the body search (C10's wording): the data of the
first matching part in depth-first order, a node before its sub-parts. -/
def dfsFirstMatch : Part → Option String
  | .mk m d ps => if partMatches m d then d else dfsFirstMatchList ps

def dfsFirstMatchList : List Part → Option String
  | [] => none
  | p :: ps =>
    match dfsFirstMatch p with
    | some s => some s
    | none => dfsFirstMatchList ps
end

mutual
/-- Every matching part of the tree carries non-empty data (the realistic
situation for base64-encoded bodies). -/
def allDataNonempty : Part → Bool
  | .mk m d ps => (!partMatches m d || !(d == some "")) && allDataNonemptyList ps

def allDataNonemptyList : List Part → Bool
  | [] => true
  | p :: ps => allDataNonempty p && allDataNonemptyList ps
end

namespace Gmail

/-- gmail.py get_body_text: decode the first body part found and strip the
markup; the two failure points (no data found ⇒ b64decode(None) raises
TypeError; undecodable data raises) are surfaced as errors. -/
def get_body_text (ext : Ext) (payload : Part) : Except PyExc String :=
  match getBodyData payload with
  | none => .error .typeError
  | some d =>
    match ext.b64decodeUtf8 d with
    | none => .error .valueError
    | some html => .ok (ext.soupText html)

/-- A raw gmail message as consumed by email_to_dataframe.  The headers list
models message['payload']['headers']; internalDate is the envelope epoch
value. -/
structure GmailMsg where
  id : String
  internalDate : Int
  payload : Part
  headers : List (String × String)

/-- The dict comprehension header_dict: for duplicate header names the last
occurrence wins. -/
def headerDict (hs : List (String × String)) (name : String) : Option String :=
  match hs with
  | [] => none
  | (n, v) :: rest =>
    match headerDict rest name with
    | some r => some r
    | none => if n = name then some v else none

/-- gmail.py parse_sender: regex search over the From header. -/
def parse_sender (headerFrom : String) : Option String :=
  gmailEmailSearch headerFrom

/-- gmail.py parse_transaction_time: pd.to_datetime(date_str,
utc=True).tz_localize(None).  Dropping the timezone keeps the UTC clock
reading, so the naive result equals the UTC minutes unchanged. -/
def parse_transaction_time (ext : Ext) (dateStr : String) : Option Int :=
  ext.pdParseUtc dateStr

/-- gmail.py parse_transfer_destination; the unguarded findall(...)[0] calls
raise IndexError when the pattern finds nothing. -/
def parse_transfer_destination (subject content : String) :
    Except PyExc (Option String) :=
  if pyStartsWith subject "Transferencias de Fondos a" then
    match transferDestT1First content with
    | some dst => .ok (some dst)
    | none => .error .indexError
  else if subject = "Transferencia a Terceros" then
    match transferDestT2First content with
    | some dst => .ok (some dst)
    | none => .error .indexError
  else .ok none

/-- A parsed row of the gmail dataframe. -/
structure GmailRow where
  Id : String
  mail_timestamp_utc : Int
  transaction_timestamp_local : TxTime
  sender : String
  currency : String
  amount : ℚ
  transaction_type : String
  transferation_type : Option String
  transferation_destination : Option String
  payment_reason : Option String
  content : String
  user_email : Option String
deriving DecidableEq, Repr

/-- Row assembly shared by the four gmail branches: the amount cell is
clean_amount(raw_money), evaluated while the row dict is built (uncaught
ValueError on a malformed numeral), and the content column is stripped and
whitespace-collapsed. -/
def assembleRow (msg : GmailMsg) (sender content : String)
    (userEmail : Option String) (raw currency : String) (t : TxTime)
    (txType : String) (ttype dest reason : Option String) :
    Except PyExc (Option GmailRow) :=
  match clean_amount raw with
  | none => .error .valueError
  | some amt =>
    .ok (some
      { Id := msg.id
        mail_timestamp_utc := msg.internalDate
        transaction_timestamp_local := t
        sender := sender
        currency := currency
        amount := amt
        transaction_type := txType
        transferation_type := ttype
        transferation_destination := dest
        payment_reason := reason
        content := collapseWs (pyStrip content)
        user_email := userEmail })

/-- The body of the gmail email_to_dataframe loop for one message.  The only
try/except inside the loop is the payment_reason fallback; every other
extraction failure escapes and aborts the whole call. -/
def step (ext : Ext) (msg : GmailMsg) : Except PyExc (Option GmailRow) :=
  let hd := headerDict msg.headers
  let subject := (hd "Subject").getD ""
  match parse_sender ((hd "From").getD "") with
  | none => .ok none
  | some sender =>
    if sender ∉ SENDER_EMAIL ∨ subject = "Aviso de transferencia de fondos" ∨
       pyContains subject "Transferencias de Fondos de" then .ok none
    else
      match get_body_text ext msg.payload with
      | .error e => .error e
      | .ok content =>
        if subject ∈ TC_SUBJECTS then
          match moneyFirst content with
          | none => .error .indexError
          | some rm =>
            let currency := if rm.1 = "US" then "USD" else "CLP"
            match tcTimestampFirst content with
            | none => .error .indexError
            | some ts =>
              match parseDMYHM ts with
              | none => .error .valueError
              | some dt =>
                let reason := (tcReasonFirst content).getD subject
                assembleRow msg sender content (hd "To") rm.2 currency
                  (.bodyLocal dt) subject none none (some reason)
        else if pyContains (pyLower subject) "transferencia" &&
                !pyContains (pyLower subject) "Transferencias de Fondos de" then
          match moneyFirst content with
          | none => .error .indexError
          | some rm =>
            let currency := if rm.1 = "US" then "USD" else "CLP"
            match hd "Date" with
            | none => .error .keyError
            | some ds =>
              match parse_transaction_time ext ds with
              | none => .error .valueError
              | some nm =>
                match parse_transfer_destination subject content with
                | .error e => .error e
                | .ok dest =>
                  assembleRow msg sender content (hd "To") rm.2 currency
                    (.headerNaive nm) "Transferencia"
                    (some "Transferencia a Terceros") dest none
        else if subject = "Comprobante Pago Tarjeta" then
          match tcPaymentMoneyGFirst content with
          | none => .error .indexError
          | some m3 =>
            let raw := m3.2.2
            match raw.data.head? with
            | none => .error .indexError
            | some c0 =>
              let currency := if String.mk [c0] = "US" then "USD" else "CLP"
              match hd "Date" with
              | none => .error .keyError
              | some ds =>
                match parse_transaction_time ext ds with
                | none => .error .valueError
                | some nm =>
                  assembleRow msg sender content (hd "To") raw currency
                    (.headerNaive nm) "Pago de Tarjeta de Crédito"
                    (some subject) none none
        else if subject = "Comprobante Pago Tarjeta Internacional" then
          match tcPaymentMoneyGFirst content with
          | none => .error .indexError
          | some m3 =>
            let raw := m3.2.1
            match hd "Date" with
            | none => .error .keyError
            | some ds =>
              match parse_transaction_time ext ds with
              | none => .error .valueError
              | some nm =>
                assembleRow msg sender content (hd "To") raw "USD"
                  (.headerNaive nm) "Pago de Tarjeta de Crédito"
                  (some subject) none none
        else .ok none

/-- gmail.py email_to_dataframe: the parsing loop; any exception escaping
the loop body aborts the whole batch. -/
def email_to_dataframe (ext : Ext) : List GmailMsg → Except PyExc (List GmailRow)
  | [] => .ok []
  | m :: ms =>
    match step ext m with
    | .error e => .error e
    | .ok o =>
      match email_to_dataframe ext ms with
      | .error e => .error e
      | .ok rest =>
        .ok (match o with
             | some r => r :: rest
             | none => rest)

/-- gmail.py fetch_supabase_data: SELECT * FROM transactions WHERE
user_email = ..., restricted to the Id column the caller consults. -/
def fetch_supabase_data (table : List StoredRow) (user_email : String) :
    List String :=
  (table.filter (fun r => r.user_email = user_email)).map (fun r => r.Id)

/-- The parse-then-filter stage of gmail_update. -/
def updateFilter (ext : Ext) (table : List StoredRow) (user_email : String)
    (msgs : List GmailMsg) : Except PyExc (List GmailRow) :=
  match email_to_dataframe ext msgs with
  | .error e => .error e
  | .ok rows =>
    .ok (dedupFilter (fun r => r.Id) rows (fetch_supabase_data table user_email))

/-- The dict returned by gmail.py's standalone parse helpers. -/
structure ParsedTx where
  transaction_timestamp_local : TxTime
  currency : String
  amount : ℚ
  transaction_type : String
  payment_reason : Option String
  transferation_type : Option String
  transferation_destination : Option String
deriving DecidableEq, Repr

/-- gmail.py parse_credit_card_purchase: the try block catches only the
IndexErrors of the three findall(...)[0] lookups (returning None); the
datetime and amount conversions in the returned dict can still raise. -/
def parse_credit_card_purchase (subject content : String) :
    Except PyExc (Option ParsedTx) :=
  if subject ∈ TC_SUBJECTS then
    match moneyFirst content, tcTimestampFirst content, tcReasonFirst content with
    | some rm, some ts, some reason =>
      match parseDMYHM ts with
      | none => .error .valueError
      | some dt =>
        match clean_amount rm.2 with
        | none => .error .valueError
        | some amt =>
          .ok (some
            { transaction_timestamp_local := .bodyLocal dt
              currency := if rm.1 = "US" then "USD" else "CLP"
              amount := amt
              transaction_type := subject
              payment_reason := some reason
              transferation_type := none
              transferation_destination := none })
    | _, _, _ => .ok none
  else .ok none

end Gmail

namespace Outlook

/-- A raw Graph message as consumed by outlook.py email_to_dataframe.
body is message['body']['content'] (none models the missing key, the only
exception the extraction try catches). -/
structure OutlookMsg where
  id : String
  senderAddress : String
  fromAddress : String
  subject : String
  body : Option String
  sentDateTime : String
  receivedDateTime : String

/-- A parsed row of the outlook dataframe.  The amount cell carries either
the float every normal branch computes or the raw string the card-payment
branch stores. -/
structure OutlookRow where
  Id : String
  mail_timestamp_utc : Int
  transaction_timestamp_local : TxTime
  sender : String
  currency : String
  amount : AmountVal
  transaction_type : String
  transferation_type : Option String
  transferation_destination : Option String
  payment_reason : Option String
  content : String
  user_email : String
deriving DecidableEq, Repr

/-- The shape-branch region of the outlook loop (the inner try block, which
catches every exception, so the whole region is a total Option).  The
subject has its 4-character forward marker sliced off first. -/
def branch (ext : Ext) (msg : OutlookMsg) (sender content : String) :
    Option OutlookRow :=
  let subject := (msg.subject.data.drop 4).asString
  if subject ∈ TC_SUBJECTS then
    match moneyFirst content with
    | none => none
    | some rm =>
      match clean_amount rm.2 with
      | none => none
      | some amt =>
        match tcTimestampFirst content with
        | none => none
        | some ts =>
          match parseDMYHM ts with
          | none => none
          | some dt =>
            let reason := (tcReasonFirst content).getD subject
            match ext.pdParse msg.receivedDateTime with
            | none => none
            | some mts =>
              some
                { Id := msg.id
                  mail_timestamp_utc := mts
                  transaction_timestamp_local := .bodyLocal dt
                  sender := sender
                  currency := if rm.1 = "US" then "USD" else "CLP"
                  amount := .num amt
                  transaction_type := subject
                  transferation_type := none
                  transferation_destination := none
                  payment_reason := some reason
                  content := content
                  user_email := msg.fromAddress }
  else if pyContains (pyLower subject) "transferencia" then
    match moneyFirst content with
    | none => none
    | some rm =>
      match clean_amount rm.2 with
      | none => none
      | some amt =>
        match ext.pdParseUtc msg.sentDateTime with
        | none => none
        | some utc =>
          let dest := (ccPaymentDestFirst content).map (fun g => g.2)
          match ext.pdParse msg.receivedDateTime with
          | none => none
          | some mts =>
            some
              { Id := msg.id
                mail_timestamp_utc := mts
                transaction_timestamp_local :=
                  .headerNaive (utc + ext.santiagoOffset utc)
                sender := sender
                currency := if rm.1 = "US" then "USD" else "CLP"
                amount := .num amt
                transaction_type := "Transferencia"
                transferation_type := some "Transferencia a Terceros"
                transferation_destination := dest
                payment_reason := none
                content := content
                user_email := msg.fromAddress }
  else if subject = "Pago de Tarjeta de Crédito Nacional" ∨
          subject = "Pago de Tarjeta de Crédito Internacional" then
    match montoMoneyFirst content with
    | none => none
    | some rm =>
      match ext.pdParseUtc msg.sentDateTime with
      | none => none
      | some utc =>
        match ext.pdParse msg.receivedDateTime with
        | none => none
        | some mts =>
          some
            { Id := msg.id
              mail_timestamp_utc := mts
              transaction_timestamp_local :=
                .headerNaive (utc + ext.santiagoOffset utc)
              sender := sender
              currency := "CLP"
              amount := .str rm.2
              transaction_type := "Pago de Tarjeta de Crédito"
              transferation_type := some subject
              transferation_destination := none
              payment_reason := none
              content := content
              user_email := msg.fromAddress }
  else none

/-- One iteration of the outlook email_to_dataframe loop.  The forwarder
check and the body/sender extraction happen before the shape try: the
extraction try catches only KeyError, so a missing body element
(AttributeError) or an unmatched SENDER_RX (IndexError) escapes and aborts
the batch. -/
def step (ext : Ext) (authUsers : List String) (msg : OutlookMsg) :
    Except PyExc (Option OutlookRow) :=
  if msg.senderAddress ∈ authUsers then
    match msg.body with
    | none => .ok none
    | some raw =>
      match ext.findBodyText raw with
      | none => .error .attrError
      | some content =>
        match senderRxFirst content with
        | none => .error .indexError
        | some g =>
          let sender := if g.1 = "" then g.2 else g.1
          if sender ∈ SENDER_EMAIL then .ok (branch ext msg sender content)
          else .ok none
  else .ok none

/-- outlook.py email_to_dataframe. -/
def email_to_dataframe (ext : Ext) (authUsers : List String) :
    List OutlookMsg → Except PyExc (List OutlookRow)
  | [] => .ok []
  | m :: ms =>
    match step ext authUsers m with
    | .error e => .error e
    | .ok o =>
      match email_to_dataframe ext authUsers ms with
      | .error e => .error e
      | .ok rest =>
        .ok (match o with
             | some r => r :: rest
             | none => rest)

/-- outlook.py fetch_supabase_data: SELECT "Id" FROM transactions — the
whole table's id column, with no owner restriction. -/
def fetch_supabase_data (table : List StoredRow) : List String :=
  table.map (fun r => r.Id)

/-- The parse-then-filter stage of outlook_update. -/
def updateFilter (ext : Ext) (authUsers : List String)
    (table : List StoredRow) (msgs : List OutlookMsg) :
    Except PyExc (List OutlookRow) :=
  match email_to_dataframe ext authUsers msgs with
  | .error e => .error e
  | .ok rows =>
    .ok (dedupFilter (fun r => r.Id) rows (fetch_supabase_data table))

end Outlook

namespace UpdateData

/-- extract_and_upload_data/config.py SENDER_EMAIL is a single string, so
the loop's membership test is a substring test. -/
def SENDER_EMAIL : String := "enviodigital@bancochile.cl"

/-- A raw Graph message as consumed by update_data.py. -/
structure UMsg where
  id : String
  senderAddress : String
  subject : String
  body : Option String
  sentDateTime : String
  receivedDateTime : String
  toRecipients : List String

/-- A parsed row of the update_data dataframe. -/
structure URow where
  Id : String
  mail_timestamp_utc : Int
  transaction_timestamp_local : TxTime
  sender : String
  currency : String
  amount : ℚ
  transaction_type : String
  transferation_type : Option String
  transferation_source : Option String
  transferation_destination : Option String
  payment_reason : Option String
  content : String
  user_email : String
deriving DecidableEq, Repr

/-- One iteration of the update_data loop.  The entire per-message body is
inside one try/except Exception, so every failure (including the explicit
ValueError raised for an unexpected sender) just skips the message: the
step is total. -/
def step (ext : Ext) (msg : UMsg) : Option URow :=
  if containsL SENDER_EMAIL.data msg.senderAddress.data then
    match msg.body with
    | none => none
    | some raw =>
      match ext.findBodyText raw with
      | none => none
      | some content =>
        match moneyFirst content with
        | none => none
        | some rm =>
          if msg.senderAddress = "enviodigital@bancochile.cl" then
            match tcTimestampFirst content with
            | none => none
            | some ts =>
              match parseDMYHM ts with
              | none => none
              | some dt =>
                match tcReasonFirst content with
                | none => none
                | some reason =>
                  match clean_amount rm.2 with
                  | none => none
                  | some amt =>
                    match ext.pdParse msg.receivedDateTime with
                    | none => none
                    | some mts =>
                      match msg.toRecipients.head? with
                      | none => none
                      | some u =>
                        some
                          { Id := msg.id
                            mail_timestamp_utc := mts
                            transaction_timestamp_local := .bodyLocal dt
                            sender := msg.senderAddress
                            currency := if rm.1 = "US" then "USD" else "CLP"
                            amount := amt
                            transaction_type := "Pago con TC"
                            transferation_type := none
                            transferation_source := none
                            transferation_destination := none
                            payment_reason := some reason
                            content := content
                            user_email := u }
          else if msg.senderAddress = "serviciodetransferencias@bancochile.cl" then
            match ext.pdParseUtc msg.sentDateTime with
            | none => none
            | some utc =>
              let ttype := msg.subject
              let rm2 :=
                if ttype = "Pago de Tarjeta de Crédito Internacional" ∨
                   ttype = "Pago de Tarjeta de Crédito Nacional" then
                  montoMoneyFirst content
                else some rm
              match rm2 with
              | none => none
              | some rmv =>
                match ccPaymentSourceFirst content with
                | none => none
                | some src =>
                  let dest := (ccPaymentDestUFirst content).map (fun g => g.1)
                  match clean_amount rmv.2 with
                  | none => none
                  | some amt =>
                    match ext.pdParse msg.receivedDateTime with
                    | none => none
                    | some mts =>
                      match msg.toRecipients.head? with
                      | none => none
                      | some u =>
                        some
                          { Id := msg.id
                            mail_timestamp_utc := mts
                            transaction_timestamp_local :=
                              .headerNaive (utc + ext.santiagoOffset utc)
                            sender := msg.senderAddress
                            currency := if rmv.1 = "US" then "USD" else "CLP"
                            amount := amt
                            transaction_type := "Transferencia"
                            transferation_type := some ttype
                            transferation_source := some src
                            transferation_destination := dest
                            payment_reason := none
                            content := content
                            user_email := u }
          else none
  else none

/-- update_data.py email_to_dataframe: total because every per-message
exception is caught. -/
def email_to_dataframe (ext : Ext) (msgs : List UMsg) : List URow :=
  msgs.filterMap (step ext)

end UpdateData

namespace MainPy

/-- A raw O365 message as consumed by main.py fetch_emails. -/
structure MainMsg where
  objectId : String
  senderAddress : String
  subject : String
  body : String
  receivedUtc : Int

/-- A row of the main.py dataframe; the local timestamp column holds the raw
matched string inside the loop (it is converted after the loop). -/
structure MainRow where
  Id : String
  mail_timestamp_utc : Int
  transaction_timestamp_local : String
  sender : String
  currency : String
  amount : ℚ
  reason : String
  content : String
deriving DecidableEq, Repr

/-- One iteration of the main.py fetch_emails loop.  The try catches only
IndexError and AttributeError; the row dict is evaluated field by field, so
a missing timestamp or reason skips the message while a float() ValueError
escapes and aborts the batch. -/
def step (msg : MainMsg) : Except PyExc (Option MainRow) :=
  if msg.senderAddress = "enviodigital@bancochile.cl" then
    match moneyFirst msg.body with
    | none => .ok none
    | some rm =>
      match tcTimestampFirst msg.body with
      | none => .ok none
      | some ts =>
        match clean_amount rm.2 with
        | none => .error .valueError
        | some amt =>
          match tcReasonFirst msg.body with
          | none => .ok none
          | some reason =>
            .ok (some
              { Id := msg.objectId
                mail_timestamp_utc := msg.receivedUtc
                transaction_timestamp_local := ts
                sender := msg.senderAddress
                currency := if rm.1 = "US" then "USD" else "CLP"
                amount := amt
                reason := reason
                content := msg.body })
  else .ok none

/-- The fetch_emails parsing loop. -/
def fetch_emails_loop : List MainMsg → Except PyExc (List MainRow)
  | [] => .ok []
  | m :: ms =>
    match step m with
    | .error e => .error e
    | .ok o =>
      match fetch_emails_loop ms with
      | .error e => .error e
      | .ok rest =>
        .ok (match o with
             | some r => r :: rest
             | none => rest)

/-- main.py DEFAULT_CATEGORY. -/
def DEFAULT_CATEGORY : Option String := none

/-- main.py REASON_MAP: the static merchant-descriptor to category table. -/
def REASON_MAP : List (String × String) :=
  [("PAYU *UBER TRIP SANTIAGO CHL", "Transporte"),
   ("AWTO AWTO CHILE LAS CONDES CL", "Transporte"),
   ("AILIME LTDA SANTIAGO CHL", "Transporte"),
   ("UBER LAS CONDES CHL", "Transporte"),
   ("MERCADOPAGO *CABIFY25 Las Condes CHL", "Transporte"),
   ("DLOCAL *AWTO SANTIAGO CL", "Transporte"),
   ("LIME*VIAJE ODVY +18885463345 USA", "Transporte"),
   ("DLOCAL *UBER RIDES SANTIAGO CHL", "Transporte"),
   ("MERCADOPAGO *CABIFYCH Las Condes CHL", "Transporte"),
   ("LIME*2 VIAJES ODVY +18885463345 USA", "Transporte"),
   ("UBER RIDES UBER RIDES LAS CONDES CHL", "Transporte"),
   ("LIME*PAGO ODVY +18885463345 US", "Transporte"),
   ("LIME*3 VIAJES ODVY +18885463345 USA", "Transporte"),
   ("PAYU *UBER EATS SANTIAGO CHL", "Comida - Delivery"),
   ("HELADERIA LAUSINA SANTIAGO CHL", "Comida - Restaurantes"),
   ("NIU SUSHI - ELIECER PA SANTIAGO CHL", "Comida - Restaurantes"),
   ("EL TOLDO AZUL SANTIAGO CHL", "Comida - Restaurantes"),
   ("LA BURGUESIA SANTIAGO CHL", "Comida - Restaurantes"),
   ("NIU SUSHI SANTIAGO CHL", "Comida - Restaurantes"),
   ("PAN LEON MUT SPA SANTIAGO CHL", "Comida - Restaurantes"),
   ("MP *TANTA SPA SANTIAGO CHL", "Comida - Restaurantes"),
   ("MC DONALDS COSTANERA C SANTIAGO CHL", "Comida - Restaurantes"),
   ("SOCIEDAD GASTRONOMICA DAISANTIAGO CL", "Comida - Restaurantes"),
   ("GASTRONOMIA ZHENG CH SANTIAGO CHL", "Comida - Restaurantes"),
   ("TUU*bibimpop SANTIAGO CHL", "Comida - Restaurantes"),
   ("CARLS JR SANTIAGO CHL", "Comida - Restaurantes"),
   ("RESTAURANT OPORTO SANTIAGO CHL", "Comida - Restaurantes"),
   ("TANTA/MUU/CANTINA W SANTIAGO CHL", "Comida - Restaurantes"),
   ("RIENDA MUT SPA SANTIAGO CHL", "Comida - Restaurantes"),
   ("MERPAGO*SICILY OGGI Q VITACURA CHL", "Comida - Restaurantes"),
   ("CRUDO SIN CENSURA MUT LAS CONDES CHL", "Comida - Restaurantes"),
   ("OKM SUECIA SANTIAGO CHL", "Comida - Minimarket"),
   ("OKM CARMEN SYLVA SANTIAGO CHL", "Comida - Minimarket"),
   ("EXPRESS TOBALABA SANTIAGO CHL", "Comida - Minimarket"),
   ("EXPRESS PLAZA LYON SANTIAGO CHL", "Comida - Minimarket"),
   ("OKM SUECIA SANTIAGO CL", "Comida - Minimarket"),
   ("ISIDORA SANTIAGO CHL", "Comida - Minimarket"),
   ("SUECIA SANTIAGO CHL", "Comida - Minimarket"),
   ("SPID MUT - O871 SANTIAGO CHL", "Comida - Minimarket"),
   ("SOCIEDAD GASTRONOMICA SANTIAGO CHL", "Comida - Minimarket"),
   ("SERVICIOS Y COMERCIAL LAS CONDES CHL ", "Comida - Minimarket"),
   ("MERCADOPAGO *MIMARKET Las Condes CHL", "Comida - Minimarket"),
   ("SPID PRESIDENTE RIESCO SANTIAGO CHL", "Comida - Minimarket"),
   ("VECINAL SANTIAGO CHL", "Comida - Minimarket"),
   ("COURSRA*3I5RRV3WAT9VSM MOUNTAIN VIEWUS", "Educacion"),
   ("CRUNCHYROLL LAS CONDES CHL", "Subscripciones"),
   ("Smart Fit Chile 551138789999 CL", "Subscripciones"),
   ("NETFLIX.COM 866-579-7172 USA", "Subscripciones"),
   ("CANDELARIA SANTIAGO CHL", "Entretenimiento"),
   ("STEAMGAMES.COM 4259522 BELLEVUE USA", "Entretenimiento"),
   ("LOS TRONCOS SANTIAGO CHL", "Entretenimiento"),
   ("CINEPLANET WEBPAY SANTIAGO CHL", "Entretenimiento"),
   ("CINEPLANET COSTANERA SANTIAGO CHL", "Entretenimiento"),
   ("Jagex Payment CAMBRIDGE GBR", "Entretenimiento"),
   ("JUMBO COSTANERA CENTER SANTIAGO CHL", "Supermercado"),
   ("CHINA HOUSE MARKET SANTIAGO CHL", "Supermercado"),
   ("UNIMARC SANTA MARIA SANTIAGO CHL", "Supermercado"),
   ("PARIS COSTANERA CENTER SANTIAGO CHL", "Supermercado")]

/-- Python dict lookup over the literal table (distinct keys; first match). -/
def reasonLookup : List (String × String) → String → Option String
  | [], _ => none
  | (k, v) :: rest, x => if k = x then some v else reasonLookup rest x

/-- The categorizer lambda REASON_MAP.get(x, DEFAULT_CATEGORY), applied to
an optional reason cell (a missing reason is not a key of the map). -/
def categoryOf (x : Option String) : Option String :=
  match x with
  | none => DEFAULT_CATEGORY
  | some s =>
    match reasonLookup REASON_MAP s with
    | some v => some v
    | none => DEFAULT_CATEGORY

/-- main.py categorize_transactions: add the category column computed from
the reason column alone. -/
def categorize_transactions (rows : List MainRow) :
    List (MainRow × Option String) :=
  rows.map (fun r => (r, categoryOf (some r.reason)))

end MainPy

/-! ### Concrete envelopes and expected rows used by the example theorems -/

/-- A concrete instantiation of the external collaborators: markup-free
bodies pass through unchanged, envelope timestamps parse to fixed minute
counts, and the Santiago offset is the southern-summer value -180. -/
def ext0 : Ext :=
  { findBodyText := fun s => some s
    soupText := fun s => s
    b64decodeUtf8 := fun s => some s
    pdParseUtc := fun _ => some 720
    pdParse := fun _ => some 0
    santiagoOffset := fun _ => -180 }

/-- One authenticated forwarding mailbox. -/
def auth0 : List String := ["user@hotmail.com"]

/-- A forwarded card-purchase message whose body carries money and timestamp
but no reason pattern. -/
def msgC1 : Outlook.OutlookMsg :=
  { id := "m1"
    senderAddress := "user@hotmail.com"
    fromAddress := "user@hotmail.com"
    subject := "Fw: Compra con Tarjeta de Crédito"
    body := some "From: enviodigital@bancochile.cl $1.000 15/03/2024 14:32"
    sentDateTime := "s"
    receivedDateTime := "r" }

/-- The row the outlook pipeline produces for msgC1. -/
def rowC1 : Outlook.OutlookRow :=
  { Id := "m1"
    mail_timestamp_utc := 0
    transaction_timestamp_local :=
      .bodyLocal { year := 2024, month := 3, day := 15, hour := 14, minute := 32 }
    sender := "enviodigital@bancochile.cl"
    currency := "CLP"
    amount := .num 1000
    transaction_type := "Compra con Tarjeta de Crédito"
    transferation_type := none
    transferation_destination := none
    payment_reason := some "Compra con Tarjeta de Crédito"
    content := "From: enviodigital@bancochile.cl $1.000 15/03/2024 14:32"
    user_email := "user@hotmail.com" }

/-- A forwarded card-bill-payment message with a Monto money field. -/
def msgC2 : Outlook.OutlookMsg :=
  { id := "m2"
    senderAddress := "user@hotmail.com"
    fromAddress := "user@hotmail.com"
    subject := "Fw: Pago de Tarjeta de Crédito Nacional"
    body := some "From: enviodigital@bancochile.cl Monto $12.345,67"
    sentDateTime := "s"
    receivedDateTime := "r" }

/-- The row the outlook pipeline produces for msgC2: the amount cell holds
the raw matched string, not a number. -/
def rowC2 : Outlook.OutlookRow :=
  { Id := "m2"
    mail_timestamp_utc := 0
    transaction_timestamp_local := .headerNaive 540
    sender := "enviodigital@bancochile.cl"
    currency := "CLP"
    amount := .str "12.345,67"
    transaction_type := "Pago de Tarjeta de Crédito"
    transferation_type := some "Pago de Tarjeta de Crédito Nacional"
    transferation_destination := none
    payment_reason := none
    content := "From: enviodigital@bancochile.cl Monto $12.345,67"
    user_email := "user@hotmail.com" }

/-- A gmail card-purchase message whose body carries no money pattern. -/
def msgC4bad : Gmail.GmailMsg :=
  { id := "g4a"
    internalDate := 0
    payload := .mk (some "text/html") (some "no money here") []
    headers := [("From", "enviodigital@bancochile.cl"),
                ("Subject", "Compra con Tarjeta de Crédito"),
                ("Date", "d"), ("To", "user@gmail.com")] }

/-- A well-formed gmail card-purchase message. -/
def msgC4good : Gmail.GmailMsg :=
  { id := "g4b"
    internalDate := 0
    payload := .mk (some "text/html")
      (some "$2.000 01/02/2024 10:00 ****1234 en STORE el 01/02/2024") []
    headers := [("From", "enviodigital@bancochile.cl"),
                ("Subject", "Compra con Tarjeta de Crédito"),
                ("Date", "d"), ("To", "user@gmail.com")] }

/-- The row the gmail pipeline produces for msgC4good. -/
def rowC4 : Gmail.GmailRow :=
  { Id := "g4b"
    mail_timestamp_utc := 0
    transaction_timestamp_local :=
      .bodyLocal { year := 2024, month := 2, day := 1, hour := 10, minute := 0 }
    sender := "enviodigital@bancochile.cl"
    currency := "CLP"
    amount := 2000
    transaction_type := "Compra con Tarjeta de Crédito"
    transferation_type := none
    transferation_destination := none
    payment_reason := some "STORE"
    content := "$2.000 01/02/2024 10:00 ****1234 en STORE el 01/02/2024"
    user_email := some "user@gmail.com" }

/-- A gmail fund-transfer message whose Date header parses (under ext0) to
UTC minute 720. -/
def msgC5 : Gmail.GmailMsg :=
  { id := "g5"
    internalDate := 0
    payload := .mk (some "text/html") (some "$1.000 Nombre y Apellido Juan") []
    headers := [("From", "enviodigital@bancochile.cl"),
                ("Subject", "Transferencia a Terceros"),
                ("Date", "Mon, 15 Jan 2024 12:00:00 +0000"),
                ("To", "user@gmail.com")] }

/-- The row the gmail pipeline produces for msgC5: the stored naive
timestamp equals the UTC header value, not the Santiago local time. -/
def rowC5 : Gmail.GmailRow :=
  { Id := "g5"
    mail_timestamp_utc := 0
    transaction_timestamp_local := .headerNaive 720
    sender := "enviodigital@bancochile.cl"
    currency := "CLP"
    amount := 1000
    transaction_type := "Transferencia"
    transferation_type := some "Transferencia a Terceros"
    transferation_destination := some "Juan"
    payment_reason := none
    content := "$1.000 Nombre y Apellido Juan"
    user_email := some "user@gmail.com" }

/-- A gmail message from an allow-listed sender with an unrecognized subject
and a payload without any text part. -/
def msgC9 : Gmail.GmailMsg :=
  { id := "g9"
    internalDate := 0
    payload := .mk none none []
    headers := [("From", "enviodigital@bancochile.cl"), ("Subject", "Hola")] }

/-- A part tree whose only matching part carries an empty data string,
nested one level down. -/
def partC10 : Part := .mk none none [.mk (some "text/html") (some "") []]

/-- A part tree with one non-empty matching part. -/
def partC10w : Part := .mk none none [.mk (some "text/plain") (some "abc") []]

/-- A store holding id X for owner A. -/
def storeA : List StoredRow := [{ Id := "X", user_email := "A" }]

/-- A candidate record with the same id X belonging to owner B. -/
def rowC3 : Outlook.OutlookRow :=
  { Id := "X"
    mail_timestamp_utc := 0
    transaction_timestamp_local := .headerNaive 0
    sender := "enviodigital@bancochile.cl"
    currency := "CLP"
    amount := .num 1
    transaction_type := "Transferencia"
    transferation_type := some "Transferencia a Terceros"
    transferation_destination := none
    payment_reason := none
    content := "c"
    user_email := "B" }

/-- An update_data message whose body is missing (the caught KeyError). -/
def msgC4u : UpdateData.UMsg :=
  { id := "u1"
    senderAddress := "enviodigital@bancochile.cl"
    subject := "x"
    body := none
    sentDateTime := "s"
    receivedDateTime := "r"
    toRecipients := ["user@hotmail.com"] }

/-- A gmail message from a sender outside the allow-list. -/
def msgC9w : Gmail.GmailMsg :=
  { id := "w"
    internalDate := 0
    payload := .mk none none []
    headers := [("From", "alguien@gmail.com"), ("Subject", "Hola")] }

/-- A main.py message whose body has money and timestamp but no reason. -/
def msgC6m : MainPy.MainMsg :=
  { objectId := "a"
    senderAddress := "enviodigital@bancochile.cl"
    subject := "x"
    body := "$1.000 15/03/2024 14:32"
    receivedUtc := 0 }

/-! ## Theorems -/

mutual
/-- When every matching part of the tree carries non-empty data, the body
search agrees with the specified depth-first first-match, and that match is
itself non-empty. -/
theorem getBodyData_eq_dfs : ∀ (p : Part), allDataNonempty p = true →
    getBodyData p = dfsFirstMatch p ∧
      ∀ s, dfsFirstMatch p = some s → s.isEmpty = false
  | .mk m d ps, h => by
    unfold allDataNonempty at h
    rw [Bool.and_eq_true] at h
    have hl := getBodyDataList_eq_dfs ps h.2
    unfold getBodyData dfsFirstMatch
    cases hpm : partMatches m d with
    | true =>
      have h1 : ¬ d = some "" := by
        have h2 := h.1
        rw [hpm] at h2
        simpa using h2
      refine ⟨by simp [hpm], ?_⟩
      intro s hs
      simp only [if_pos] at hs
      cases hse : s.isEmpty
      · rfl
      · exact absurd (((String.isEmpty_iff s).mp hse) ▸ hs) h1
    | false =>
      simpa [hpm] using hl

theorem getBodyDataList_eq_dfs : ∀ (ps : List Part),
    allDataNonemptyList ps = true →
    getBodyDataList ps = dfsFirstMatchList ps ∧
      ∀ s, dfsFirstMatchList ps = some s → s.isEmpty = false
  | [], _ => by
    refine ⟨rfl, ?_⟩
    intro s hs
    simp [dfsFirstMatchList] at hs
  | p :: ps, h => by
    unfold allDataNonemptyList at h
    rw [Bool.and_eq_true] at h
    have hp := getBodyData_eq_dfs p h.1
    have hps := getBodyDataList_eq_dfs ps h.2
    unfold getBodyDataList dfsFirstMatchList
    cases hd : dfsFirstMatch p with
    | some s =>
      have hne := hp.2 s hd
      rw [hp.1, hd]
      refine ⟨by simp [pyTruthyStr, hne], ?_⟩
      intro t ht
      rw [show (match some s with
                | some u => some u
                | none => dfsFirstMatchList ps) = some s from rfl] at ht
      cases ht
      exact hne
    | none =>
      rw [hp.1, hd]
      simpa [pyTruthyStr] using hps
end

/-- Every row produced by the outlook shape branch populates exactly one of
payment_reason and transferation_type. -/
theorem Outlook.branch_xor (ext : Ext) (msg : Outlook.OutlookMsg)
    (sender content : String) (r : Outlook.OutlookRow)
    (h : Outlook.branch ext msg sender content = some r) :
    r.payment_reason.isSome = !r.transferation_type.isSome := by
  unfold Outlook.branch at h
  simp only [] at h
  repeat' split at h
  all_goals try (exfalso; simp at h; done)
  all_goals try injection h with h2
  all_goals try subst r
  all_goals rfl

/-- A row returned by the outlook loop step comes from the shape branch. -/
theorem Outlook.step_some (ext : Ext) (auth : List String)
    (msg : Outlook.OutlookMsg) (r : Outlook.OutlookRow)
    (h : Outlook.step ext auth msg = .ok (some r)) :
    ∃ s c, Outlook.branch ext msg s c = some r := by
  unfold Outlook.step at h
  simp only [] at h
  repeat' split at h
  all_goals try (exfalso; simp at h; done)
  all_goals try injection h with h2
  all_goals exact ⟨_, _, by assumption⟩

/-- Every row in an ok outlook batch comes from some message's step. -/
theorem Outlook.outlook_mem_rows (ext : Ext) (auth : List String) :
    ∀ (msgs : List Outlook.OutlookMsg) (rows : List Outlook.OutlookRow),
      Outlook.email_to_dataframe ext auth msgs = .ok rows →
      ∀ r ∈ rows, ∃ msg, msg ∈ msgs ∧ Outlook.step ext auth msg = .ok (some r)
  | [], rows, h => by
    injection h with h
    subst h
    intro r hr
    cases hr
  | m :: ms, rows, h => by
    unfold Outlook.email_to_dataframe at h
    cases hs : Outlook.step ext auth m with
    | error e => rw [hs] at h; injection h
    | ok o =>
      rw [hs] at h
      cases hrest : Outlook.email_to_dataframe ext auth ms with
      | error e => rw [hrest] at h; injection h
      | ok rest =>
        rw [hrest] at h
        cases o with
        | none =>
          injection h with h
          subst h
          intro r hr
          obtain ⟨msg, hm, hstep⟩ :=
            Outlook.outlook_mem_rows ext auth ms rest hrest r hr
          exact ⟨msg, List.mem_cons_of_mem _ hm, hstep⟩
        | some r0 =>
          injection h with h
          subst h
          intro r hr
          rcases List.mem_cons.mp hr with hr1 | hr2
          · subst hr1
            exact ⟨m, List.mem_cons_self _ _, hs⟩
          · obtain ⟨msg, hm, hstep⟩ :=
              Outlook.outlook_mem_rows ext auth ms rest hrest r hr2
            exact ⟨msg, List.mem_cons_of_mem _ hm, hstep⟩

/-- Every row produced by the gmail loop step populates exactly one of
payment_reason and transferation_type. -/
theorem Gmail.gmail_step_xor (ext : Ext) (msg : Gmail.GmailMsg) (r : Gmail.GmailRow)
    (h : Gmail.step ext msg = .ok (some r)) :
    r.payment_reason.isSome = !r.transferation_type.isSome := by
  unfold Gmail.step Gmail.assembleRow at h
  simp only [] at h
  repeat' split at h
  all_goals try (exfalso; simp at h; done)
  all_goals try injection h with h2
  all_goals try injection h2 with h3
  all_goals try subst r
  all_goals rfl

/-- Every row in an ok gmail batch comes from some message's step. -/
theorem Gmail.gmail_mem_rows (ext : Ext) :
    ∀ (msgs : List Gmail.GmailMsg) (rows : List Gmail.GmailRow),
      Gmail.email_to_dataframe ext msgs = .ok rows →
      ∀ r ∈ rows, ∃ msg, msg ∈ msgs ∧ Gmail.step ext msg = .ok (some r)
  | [], rows, h => by
    injection h with h
    subst h
    intro r hr
    cases hr
  | m :: ms, rows, h => by
    unfold Gmail.email_to_dataframe at h
    cases hs : Gmail.step ext m with
    | error e => rw [hs] at h; injection h
    | ok o =>
      rw [hs] at h
      cases hrest : Gmail.email_to_dataframe ext ms with
      | error e => rw [hrest] at h; injection h
      | ok rest =>
        rw [hrest] at h
        cases o with
        | none =>
          injection h with h
          subst h
          intro r hr
          obtain ⟨msg, hm, hstep⟩ :=
            Gmail.gmail_mem_rows ext ms rest hrest r hr
          exact ⟨msg, List.mem_cons_of_mem _ hm, hstep⟩
        | some r0 =>
          injection h with h
          subst h
          intro r hr
          rcases List.mem_cons.mp hr with hr1 | hr2
          · subst hr1
            exact ⟨m, List.mem_cons_self _ _, hs⟩
          · obtain ⟨msg, hm, hstep⟩ :=
              Gmail.gmail_mem_rows ext ms rest hrest r hr2
            exact ⟨msg, List.mem_cons_of_mem _ hm, hstep⟩

/-- Every row produced by the update_data step populates exactly one of
payment_reason and transferation_type. -/
theorem UpdateData.update_step_xor (ext : Ext) (msg : UpdateData.UMsg)
    (r : UpdateData.URow) (h : UpdateData.step ext msg = some r) :
    r.payment_reason.isSome = !r.transferation_type.isSome := by
  unfold UpdateData.step at h
  simp only [] at h
  repeat' split at h
  all_goals try (exfalso; simp at h; done)
  all_goals try injection h with h2
  all_goals try subst r
  all_goals rfl

/-- A successful lookup result is one of the table's values. -/
theorem MainPy.reasonLookup_mem :
    ∀ (l : List (String × String)) (s v : String),
      MainPy.reasonLookup l s = some v → v ∈ l.map Prod.snd
  | [], s, v, h => by cases h
  | (k, w) :: rest, s, v, h => by
    unfold MainPy.reasonLookup at h
    split at h
    · injection h with h
      subst h
      exact List.mem_cons_self _ _
    · exact List.mem_cons_of_mem _ (MainPy.reasonLookup_mem rest s v h)

/-- A card-purchase subject never triggers the gmail early skip filter. -/
theorem tc_subject_not_filtered (s : String) (hs : s ∈ TC_SUBJECTS) :
    s ≠ "Aviso de transferencia de fondos" ∧
      pyContains s "Transferencias de Fondos de" = false := by
  fin_cases hs <;> exact ⟨by decide, by decide⟩

/-- C1: every TransactionRecord emitted by the pipeline, in each provider
variant that populates these fields (outlook.py, gmail.py, update_data.py),
has exactly one of payment_reason and transferation_type non-null: a
CardPurchase row carries a reason and no transfer type, a Transfer or
CardPayment row carries a transfer type and no reason; a row with both null
or both non-null is never emitted. -/
theorem emitted_rows_have_exactly_one_reason_or_type :
    (∀ (ext : Ext) (auth : List String) (msgs : List Outlook.OutlookMsg)
        (rows : List Outlook.OutlookRow),
        Outlook.email_to_dataframe ext auth msgs = .ok rows →
        ∀ r ∈ rows, r.payment_reason.isSome = !r.transferation_type.isSome) ∧
    (∀ (ext : Ext) (msgs : List Gmail.GmailMsg) (rows : List Gmail.GmailRow),
        Gmail.email_to_dataframe ext msgs = .ok rows →
        ∀ r ∈ rows, r.payment_reason.isSome = !r.transferation_type.isSome) ∧
    (∀ (ext : Ext) (msgs : List UpdateData.UMsg),
        ∀ r ∈ UpdateData.email_to_dataframe ext msgs,
        r.payment_reason.isSome = !r.transferation_type.isSome) := by
  refine ⟨?_, ?_, ?_⟩
  · intro ext auth msgs rows h r hr
    obtain ⟨msg, _, hstep⟩ :=
      Outlook.outlook_mem_rows ext auth msgs rows h r hr
    obtain ⟨s, c, hb⟩ := Outlook.step_some ext auth msg r hstep
    exact Outlook.branch_xor ext msg s c r hb
  · intro ext msgs rows h r hr
    obtain ⟨msg, _, hstep⟩ := Gmail.gmail_mem_rows ext msgs rows h r hr
    exact Gmail.gmail_step_xor ext msg r hstep
  · intro ext msgs r hr
    obtain ⟨msg, _, hstep⟩ := List.mem_filterMap.mp hr
    exact UpdateData.update_step_xor ext msg r hstep

/-- C1 witness: a concrete outlook run emits one row, and the mutual
exclusion holds on it. -/
theorem emitted_rows_exactly_one_example :
    Outlook.email_to_dataframe ext0 auth0 [msgC1] = .ok [rowC1] ∧
    rowC1.payment_reason.isSome = !rowC1.transferation_type.isSome := by
  refine ⟨by decide, ?_⟩
  exact emitted_rows_have_exactly_one_reason_or_type.1 ext0 auth0 [msgC1]
    [rowC1] (by decide) rowC1 (List.mem_singleton.mpr rfl)

/-- C2 (bug evidence): in the outlook card-payment branch the amount cell is
the raw matched string, not the normalized decimal: a message whose body
says Monto $12.345,67 is emitted with amount the string 12.345,67, while the
shared normalization (applied in every other branch, as the first conjuncts
show on the money pattern itself) would give the decimal 12345.67. -/
theorem outlook_card_payment_amount_left_unnormalized :
    moneyFirst "$12.345,67" = some ("", "12.345,67") ∧
    clean_amount "12.345,67" = some (1234567 / 100 : ℚ) ∧
    Outlook.email_to_dataframe ext0 auth0 [msgC2] = .ok [rowC2] ∧
    rowC2.amount = .str "12.345,67" ∧
    AmountVal.str "12.345,67" ≠ AmountVal.num (1234567 / 100 : ℚ) := by
  refine ⟨by decide, ?_, by decide, rfl, by decide⟩
  have h : clean_amount "12.345,67"
      = some (((12345 : ℕ) : ℚ) + ((67 : ℕ) : ℚ) / (10 ^ (2 : ℕ) : ℚ)) := rfl
  rw [h]
  norm_num

/-- C5 (bug evidence): the gmail variant stores the Transfer timestamp naive
without converting it to America/Santiago first: parse_transaction_time is
the identity on the UTC minutes, so the emitted naive value equals the UTC
header time, while the outlook variants (and the gmail docstring) produce
utc + offset; with offset -180 the two differ. -/
theorem gmail_transfer_timestamp_not_converted_to_local :
    Gmail.email_to_dataframe ext0 [msgC5] = .ok [rowC5] ∧
    rowC5.transaction_timestamp_local = .headerNaive 720 ∧
    Gmail.parse_transaction_time ext0 "Mon, 15 Jan 2024 12:00:00 +0000" =
      some 720 ∧
    ext0.santiagoOffset 720 = -180 ∧
    (720 : Int) + ext0.santiagoOffset 720 = 540 ∧
    TxTime.headerNaive 720 ≠ TxTime.headerNaive 540 := by
  exact ⟨by decide, rfl, rfl, rfl, by decide, by decide⟩

/-- C10 (amended): the body-part search is a total structurally recursive
function, and on every tree whose matching parts carry non-empty data it
returns exactly the data of the first matching text/html or text/plain part
in depth-first order, or none when there is no such part.  (Without the
non-empty-data hypothesis the source skips an empty data string found in a
sub-part, as the counterexample shows.) -/
theorem get_body_data_first_match_dfs (p : Part)
    (h : allDataNonempty p = true) : getBodyData p = dfsFirstMatch p :=
  (getBodyData_eq_dfs p h).1

/-- C10 witness: on a concrete two-node tree with non-empty data the search
returns the depth-first first matching part's data. -/
theorem get_body_data_first_match_example :
    allDataNonempty partC10w = true ∧
    getBodyData partC10w = dfsFirstMatch partC10w ∧
    getBodyData partC10w = some "abc" :=
  ⟨by rfl, get_body_data_first_match_dfs partC10w (by rfl), by rfl⟩

/-- C10 counterexample: a matching sub-part carrying an empty data string is
passed over (Python truthiness), so the search returns none although the
depth-first first matching part exists and carries (empty) data. -/
theorem get_body_data_empty_data_nested :
    getBodyData partC10 = none ∧
    dfsFirstMatch partC10 = some "" ∧
    (none : Option String) ≠ some "" :=
  ⟨rfl, rfl, by decide⟩

/-- C3 (amended): the gmail variant's dedup read path is scoped per mailbox
owner: every id it returns was persisted for that owner, and an id persisted
only for other owners never suppresses a candidate record.  (The outlook,
main.py and update_data variants read the global id column instead, so there
cross-owner suppression does occur — see the counterexample.) -/
theorem gmail_dedup_read_scoped_per_owner :
    (∀ (table : List StoredRow) (u id : String),
        id ∈ Gmail.fetch_supabase_data table u →
        ∃ s, s ∈ table ∧ s.user_email = u ∧ s.Id = id) ∧
    (∀ (table : List StoredRow) (u : String) (rows : List Gmail.GmailRow)
        (r : Gmail.GmailRow), r ∈ rows →
        (∀ s, s ∈ table → s.user_email = u → s.Id ≠ r.Id) →
        r ∈ dedupFilter (fun x => x.Id) rows
              (Gmail.fetch_supabase_data table u)) := by
  constructor
  · intro table u id hid
    unfold Gmail.fetch_supabase_data at hid
    rcases List.mem_map.mp hid with ⟨s, hs, rfl⟩
    rcases List.mem_filter.mp hs with ⟨hmem, hu⟩
    exact ⟨s, hmem, by simpa using hu, rfl⟩
  · intro table u rows r hr hother
    unfold dedupFilter
    refine List.mem_filter.mpr ⟨hr, ?_⟩
    simp only [decide_eq_true_eq]
    intro hin
    unfold Gmail.fetch_supabase_data at hin
    rcases List.mem_map.mp hin with ⟨s, hs, hid⟩
    rcases List.mem_filter.mp hs with ⟨hmem, hu⟩
    exact hother s hmem (by simpa using hu) hid

/-- C3 witness: an id persisted for owner A does not suppress owner B's
record under the gmail owner-scoped read path. -/
theorem gmail_dedup_scoping_example :
    ({ rowC4 with Id := "X" } : Gmail.GmailRow) ∈
      dedupFilter (fun r : Gmail.GmailRow => r.Id)
        [{ rowC4 with Id := "X" }]
        (Gmail.fetch_supabase_data storeA "user@gmail.com") := by
  exact gmail_dedup_read_scoped_per_owner.2 storeA "user@gmail.com"
    [{ rowC4 with Id := "X" }] { rowC4 with Id := "X" }
    (List.mem_singleton.mpr rfl) (by decide)

/-- C3 counterexample: the outlook read path returns the global id column,
so the id persisted for owner A suppresses owner B's record with the same
id: the filtered batch is empty. -/
theorem outlook_dedup_read_global_suppresses_other_owner :
    rowC3.user_email = "B" ∧
    storeA.map (fun r => r.user_email) = ["A"] ∧
    rowC3.Id ∈ Outlook.fetch_supabase_data storeA ∧
    dedupFilter (fun r : Outlook.OutlookRow => r.Id) [rowC3]
      (Outlook.fetch_supabase_data storeA) = [] :=
  ⟨rfl, rfl, by decide, by decide⟩

/-- Adding the ids of a dedup run's own output to the store makes a second
identical run produce nothing. -/
theorem dedupFilter_append_output_empty {ρ : Type} (getId : ρ → String)
    (rows : List ρ) (prev : List String) :
    dedupFilter getId rows
      (prev ++ (dedupFilter getId rows prev).map getId) = [] := by
  unfold dedupFilter
  rw [List.filter_eq_nil_iff]
  intro r hr
  simp only [decide_eq_true_eq, Decidable.not_not]
  by_cases hp : getId r ∈ prev
  · exact List.mem_append_left _ hp
  · refine List.mem_append_right _ (List.mem_map.mpr ⟨r, ?_, rfl⟩)
    exact List.mem_filter.mpr ⟨hr, by simpa using hp⟩

/-- C8: the dedup filter is idempotent.  Generically: filtering any batch
against a store augmented with the ids of the first filter's output yields
the empty batch; at the pipeline level, re-running the outlook
parse-and-filter stage after appending the first run's output rows to the
table yields zero new records. -/
theorem dedup_filter_idempotent :
    (∀ {ρ : Type} (getId : ρ → String) (rows : List ρ) (prev : List String),
        dedupFilter getId rows
          (prev ++ (dedupFilter getId rows prev).map getId) = []) ∧
    (∀ (ext : Ext) (auth : List String) (table : List StoredRow)
        (msgs : List Outlook.OutlookMsg) (filtered : List Outlook.OutlookRow),
        Outlook.updateFilter ext auth table msgs = .ok filtered →
        Outlook.updateFilter ext auth
          (table ++ filtered.map
            (fun r => { Id := r.Id, user_email := r.user_email })) msgs =
          .ok []) := by
  constructor
  · intro ρ getId rows prev
    exact dedupFilter_append_output_empty getId rows prev
  · intro ext auth table msgs filtered h
    unfold Outlook.updateFilter at h ⊢
    cases he : Outlook.email_to_dataframe ext auth msgs with
    | error e => rw [he] at h; exact absurd h (by simp)
    | ok rows =>
      rw [he] at h
      injection h with h
      subst h
      have hf : Outlook.fetch_supabase_data
          (table ++ (dedupFilter (fun r => r.Id) rows
              (Outlook.fetch_supabase_data table)).map
            (fun r => { Id := r.Id, user_email := r.user_email })) =
          Outlook.fetch_supabase_data table ++
            (dedupFilter (fun r => r.Id) rows
              (Outlook.fetch_supabase_data table)).map (fun r => r.Id) := by
        unfold Outlook.fetch_supabase_data
        rw [List.map_append, List.map_map]
        rfl
      rw [hf]
      dsimp only
      rw [dedupFilter_append_output_empty]

/-- C8 witness: a concrete outlook run followed by a second run against the
augmented store yields zero new records. -/
theorem dedup_filter_idempotent_example :
    Outlook.updateFilter ext0 auth0 [] [msgC1] = .ok [rowC1] ∧
    Outlook.updateFilter ext0 auth0
      ([] ++ [rowC1].map
        (fun r => { Id := r.Id, user_email := r.user_email })) [msgC1] =
      .ok [] := by
  refine ⟨by decide, ?_⟩
  exact dedup_filter_idempotent.2 ext0 auth0 [] [msgC1] [rowC1] (by decide)

/-- C7 (amended): the categorizer assigns category by looking the record's
reason up in the static REASON_MAP, with the configured default (null) on a
miss, and that is all it does: no transferation_type override exists in the
code — in particular the category value "Credit Card Bill Payment" is never
produced for any input. -/
theorem categorizer_reason_lookup_only :
    (∀ rows : List MainPy.MainRow,
        MainPy.categorize_transactions rows =
          rows.map (fun r => (r, MainPy.categoryOf (some r.reason)))) ∧
    (∀ s c, MainPy.reasonLookup MainPy.REASON_MAP s = some c →
        MainPy.categoryOf (some s) = some c) ∧
    (∀ s, MainPy.reasonLookup MainPy.REASON_MAP s = none →
        MainPy.categoryOf (some s) = none) ∧
    (∀ x, MainPy.categoryOf x ≠ some "Credit Card Bill Payment") := by
  refine ⟨fun rows => rfl, ?_, ?_, ?_⟩
  · intro s c h
    simp [MainPy.categoryOf, h]
  · intro s h
    simp [MainPy.categoryOf, h, MainPy.DEFAULT_CATEGORY]
  · intro x hx
    cases x with
    | none => exact Option.noConfusion hx
    | some s =>
      have hx2 : (match MainPy.reasonLookup MainPy.REASON_MAP s with
                  | some v => some v
                  | none => MainPy.DEFAULT_CATEGORY) =
          some "Credit Card Bill Payment" := hx
      cases hl : MainPy.reasonLookup MainPy.REASON_MAP s with
      | none =>
        rw [hl] at hx2
        exact Option.noConfusion hx2
      | some v =>
        rw [hl] at hx2
        injection hx2 with hv
        subst hv
        have hmem := MainPy.reasonLookup_mem _ _ _ hl
        revert hmem
        decide

/-- C7 witness: a mapped reason yields its category; no input yields the
bill-payment label. -/
theorem categorizer_lookup_example :
    MainPy.categoryOf (some "UBER LAS CONDES CHL") = some "Transporte" ∧
    MainPy.categoryOf (some "PANADERIA X SANTIAGO CHL") ≠
      some "Credit Card Bill Payment" :=
  ⟨categorizer_reason_lookup_only.2.1 "UBER LAS CONDES CHL" "Transporte"
      (by decide),
   categorizer_reason_lookup_only.2.2.2 (some "PANADERIA X SANTIAGO CHL")⟩

/-- C7 counterexample: a concrete emitted card-bill-payment record (its
transferation_type is one of the two bill-payment subject strings) is
categorized from its null reason to the default null, not to the
"Credit Card Bill Payment" label the claim asserts. -/
theorem bill_payment_type_not_overridden :
    rowC2.transferation_type = some "Pago de Tarjeta de Crédito Nacional" ∧
    MainPy.categoryOf rowC2.payment_reason = none ∧
    (none : Option String) ≠ some "Credit Card Bill Payment" :=
  ⟨rfl, rfl, by decide⟩

/-- C4 (amended): how a parse failure in one message affects the batch, per
variant.  update_data.py wraps the whole per-message body in one try/except,
so a failing message is skipped and the rest of the batch is unaffected;
outlook.py catches every exception inside the shape branch (once body and
sender extraction succeed, the step cannot raise) and a skipped message
leaves the rest of the batch unchanged; main.py's loop catches IndexError
and AttributeError, so those never escape; but the gmail parsing loop has no
per-message guard: a message whose parsing raises aborts the whole batch
with that exception. -/
theorem per_message_error_handling_by_variant :
    (∀ (ext : Ext) (xs ys : List UpdateData.UMsg) (bad : UpdateData.UMsg),
        UpdateData.step ext bad = none →
        UpdateData.email_to_dataframe ext (xs ++ bad :: ys) =
          UpdateData.email_to_dataframe ext (xs ++ ys)) ∧
    (∀ (ext : Ext) (auth : List String) (msg : Outlook.OutlookMsg)
        (raw content : String) (g : String × String),
        msg.body = some raw → ext.findBodyText raw = some content →
        senderRxFirst content = some g →
        ∃ o, Outlook.step ext auth msg = .ok o) ∧
    (∀ (ext : Ext) (auth : List String) (xs ys : List Outlook.OutlookMsg)
        (bad : Outlook.OutlookMsg),
        Outlook.step ext auth bad = .ok none →
        Outlook.email_to_dataframe ext auth (xs ++ bad :: ys) =
          Outlook.email_to_dataframe ext auth (xs ++ ys)) ∧
    (∀ msg : MainPy.MainMsg,
        MainPy.step msg ≠ .error .indexError ∧
        MainPy.step msg ≠ .error .attrError) ∧
    (∀ (ext : Ext) (xs ys : List Gmail.GmailMsg) (bad : Gmail.GmailMsg)
        (e : PyExc),
        (∀ x ∈ xs, ∃ o, Gmail.step ext x = .ok o) →
        Gmail.step ext bad = .error e →
        Gmail.email_to_dataframe ext (xs ++ bad :: ys) = .error e) := by
  refine ⟨?_, ?_, ?_, ?_, ?_⟩
  · intro ext xs ys bad h
    simp [UpdateData.email_to_dataframe, List.filterMap_append,
      List.filterMap_cons, h]
  · intro ext auth msg raw content g hb hf hs
    unfold Outlook.step
    by_cases ha : msg.senderAddress ∈ auth
    · rw [if_pos ha, hb]
      dsimp only
      rw [hf]
      dsimp only
      rw [hs]
      dsimp only
      by_cases hsm : (if g.1 = "" then g.2 else g.1) ∈ SENDER_EMAIL
      · rw [if_pos hsm]
        exact ⟨_, rfl⟩
      · rw [if_neg hsm]
        exact ⟨none, rfl⟩
    · rw [if_neg ha]
      exact ⟨none, rfl⟩
  · intro ext auth xs ys bad h
    induction xs with
    | nil =>
      simp only [List.nil_append]
      conv_lhs => unfold Outlook.email_to_dataframe
      rw [h]
      cases hys : Outlook.email_to_dataframe ext auth ys <;> rfl
    | cons x xs ih =>
      simp only [List.cons_append]
      unfold Outlook.email_to_dataframe
      rw [ih]
  · intro msg
    constructor <;>
      (unfold MainPy.step
       repeat' split
       all_goals simp)
  · intro ext xs ys bad e hok hbad
    induction xs with
    | nil =>
      simp only [List.nil_append]
      unfold Gmail.email_to_dataframe
      rw [hbad]
    | cons x xs ih =>
      obtain ⟨o, ho⟩ := hok x (List.mem_cons_self _ _)
      simp only [List.cons_append]
      conv_lhs => unfold Gmail.email_to_dataframe
      rw [ho, ih (fun y hy => hok y (List.mem_cons_of_mem _ hy))]

/-- C4 witness: instances of the update_data skip behaviour and the gmail
abort behaviour at concrete batches. -/
theorem per_message_error_handling_example :
    UpdateData.email_to_dataframe ext0 ([] ++ msgC4u :: []) =
      UpdateData.email_to_dataframe ext0 ([] ++ []) ∧
    Gmail.email_to_dataframe ext0 ([] ++ msgC4bad :: [msgC4good]) =
      .error .indexError := by
  constructor
  · exact per_message_error_handling_by_variant.1 ext0 [] [] msgC4u (by rfl)
  · exact per_message_error_handling_by_variant.2.2.2.2 ext0 [] [msgC4good]
      msgC4bad .indexError (by intro x hx; cases hx) (by decide)

/-- C4 counterexample: a gmail card-purchase message with no money match
raises IndexError and aborts the whole batch, losing the well-formed message
behind it (which parses fine on its own). -/
theorem gmail_batch_aborts_on_malformed_message :
    Gmail.step ext0 msgC4bad = .error .indexError ∧
    Gmail.email_to_dataframe ext0 [msgC4good] = .ok [rowC4] ∧
    Gmail.email_to_dataframe ext0 [msgC4bad, msgC4good] = .error .indexError :=
  ⟨by decide, by decide, by decide⟩

/-- C6 (amended): the subject fallback for a missing card-purchase reason
exists in the outlook and gmail email_to_dataframe loops: when the money and
timestamp extractions succeed and the reason pattern finds nothing, a record
is still emitted with payment_reason equal to the (forward-stripped)
subject.  It does not exist in gmail's parse_credit_card_purchase helper,
in main.py's fetch_emails, or in update_data.py: there a missing reason
drops the record. -/
theorem reason_fallback_by_variant :
    (∀ (ext : Ext) (msg : Outlook.OutlookMsg) (sender content : String)
        (rm : String × String) (amt : ℚ) (ts : String) (dt : NaiveDT)
        (mts : Int),
        (msg.subject.data.drop 4).asString ∈ TC_SUBJECTS →
        moneyFirst content = some rm →
        clean_amount rm.2 = some amt →
        tcTimestampFirst content = some ts →
        parseDMYHM ts = some dt →
        ext.pdParse msg.receivedDateTime = some mts →
        tcReasonFirst content = none →
        ∃ r, Outlook.branch ext msg sender content = some r ∧
          r.payment_reason = some ((msg.subject.data.drop 4).asString)) ∧
    (∀ (ext : Ext) (msg : Gmail.GmailMsg) (s d html : String)
        (rm : String × String) (amt : ℚ) (ts : String) (dt : NaiveDT),
        Gmail.parse_sender ((Gmail.headerDict msg.headers "From").getD "") =
          some s →
        s ∈ SENDER_EMAIL →
        (Gmail.headerDict msg.headers "Subject").getD "" ∈ TC_SUBJECTS →
        getBodyData msg.payload = some d →
        ext.b64decodeUtf8 d = some html →
        moneyFirst (ext.soupText html) = some rm →
        clean_amount rm.2 = some amt →
        tcTimestampFirst (ext.soupText html) = some ts →
        parseDMYHM ts = some dt →
        tcReasonFirst (ext.soupText html) = none →
        ∃ r, Gmail.step ext msg = .ok (some r) ∧
          r.payment_reason =
            some ((Gmail.headerDict msg.headers "Subject").getD "")) ∧
    (∀ subject content : String, tcReasonFirst content = none →
        Gmail.parse_credit_card_purchase subject content = .ok none) ∧
    (∀ msg : MainPy.MainMsg, tcReasonFirst msg.body = none →
        ∀ r, MainPy.step msg ≠ .ok (some r)) ∧
    (∀ (ext : Ext) (msg : UpdateData.UMsg) (raw content : String),
        msg.senderAddress = "enviodigital@bancochile.cl" →
        msg.body = some raw → ext.findBodyText raw = some content →
        tcReasonFirst content = none →
        UpdateData.step ext msg = none) := by
  refine ⟨?_, ?_, ?_, ?_, ?_⟩
  · intro ext msg sender content rm amt ts dt mts hTC hm ha ht hd hp hr
    unfold Outlook.branch
    dsimp only
    rw [if_pos hTC, hm]
    dsimp only
    rw [ha]
    dsimp only
    rw [ht]
    dsimp only
    rw [hd]
    dsimp only
    rw [hp, hr]
    exact ⟨_, rfl, rfl⟩
  · intro ext msg s d html rm amt ts dt hs hsm hTC hgb hdec hm ha ht hd hr
    have hfilter := tc_subject_not_filtered _ hTC
    unfold Gmail.step
    dsimp only
    rw [hs]
    dsimp only
    rw [if_neg (by
      push_neg
      exact ⟨hsm, hfilter.1, by simp [hfilter.2]⟩)]
    unfold Gmail.get_body_text
    rw [hgb]
    dsimp only
    rw [hdec]
    dsimp only
    rw [if_pos hTC, hm]
    dsimp only
    rw [ht]
    dsimp only
    rw [hd]
    dsimp only
    unfold Gmail.assembleRow
    rw [hr, ha]
    exact ⟨_, rfl, rfl⟩
  · intro subject content h
    unfold Gmail.parse_credit_card_purchase
    split
    · rw [h]
      cases moneyFirst content <;> cases tcTimestampFirst content <;> rfl
    · rfl
  · intro msg h r hc
    unfold MainPy.step at hc
    repeat' split at hc
    all_goals simp_all
  · intro ext msg raw content hs hb hf hr
    unfold UpdateData.step
    rw [hs, hb]
    dsimp only
    rw [hf]
    dsimp only
    rw [if_pos (by decide)]
    cases hm : moneyFirst content
    · rfl
    · dsimp only
      rw [if_pos rfl]
      cases ht : tcTimestampFirst content
      · rfl
      · dsimp only
        cases hd : parseDMYHM _
        · rfl
        · dsimp only
          rw [hr]

/-- C6 witness: at a concrete card-purchase message whose body lacks the
reason pattern, the outlook branch still emits a record whose
payment_reason is the subject. -/
theorem reason_fallback_example :
    (Outlook.branch ext0 msgC1 "enviodigital@bancochile.cl"
        "From: enviodigital@bancochile.cl $1.000 15/03/2024 14:32").map
      (fun r => r.payment_reason) =
      some (some "Compra con Tarjeta de Crédito") := by
  obtain ⟨r, hr, hp⟩ := reason_fallback_by_variant.1 ext0 msgC1
    "enviodigital@bancochile.cl"
    "From: enviodigital@bancochile.cl $1.000 15/03/2024 14:32"
    ("", "1.000") 1000 "15/03/2024 14:32"
    { year := 2024, month := 3, day := 15, hour := 14, minute := 32 } 0
    (by decide) (by decide) (by decide) (by decide) (by decide) (by rfl)
    (by decide)
  rw [hr]
  simpa using hp

/-- C6 counterexample: a card-purchase body with money and timestamp but no
reason pattern is dropped (no record emitted) by gmail's
parse_credit_card_purchase helper and by main.py's loop, instead of being
emitted with the subject as reason. -/
theorem reason_missing_drops_record_in_helper :
    tcReasonFirst "$1.000 15/03/2024 14:32" = none ∧
    moneyFirst "$1.000 15/03/2024 14:32" = some ("", "1.000") ∧
    tcTimestampFirst "$1.000 15/03/2024 14:32" = some "15/03/2024 14:32" ∧
    Gmail.parse_credit_card_purchase "Compra con Tarjeta de Crédito"
      "$1.000 15/03/2024 14:32" = .ok none ∧
    MainPy.step msgC6m = .ok none :=
  ⟨by decide, by decide, by decide, by decide, by decide⟩

/-- C9 (amended): messages with an unrecognized sender or subject are
skipped without a record and without an exception, provided the skip happens
before body extraction (sender checks) or the body extraction itself
succeeds (subject checks): in gmail an unparseable or non-allow-listed
sender is skipped before the body is touched; an allow-listed sender with an
unrecognized subject is skipped when the body decodes, but body extraction
runs before the subject dispatch and can raise (see the counterexample); in
outlook an unauthenticated forwarder is always skipped, an extracted sender
outside the allow-list is skipped, and an unrecognized subject makes the
shape branch emit nothing. -/
theorem unrecognized_messages_skipped :
    (∀ (ext : Ext) (msg : Gmail.GmailMsg),
        (∀ s, Gmail.parse_sender
            ((Gmail.headerDict msg.headers "From").getD "") = some s →
            s ∉ SENDER_EMAIL) →
        Gmail.step ext msg = .ok none) ∧
    (∀ (ext : Ext) (msg : Gmail.GmailMsg) (s d html : String),
        Gmail.parse_sender ((Gmail.headerDict msg.headers "From").getD "") =
          some s →
        getBodyData msg.payload = some d →
        ext.b64decodeUtf8 d = some html →
        (Gmail.headerDict msg.headers "Subject").getD "" ∉ TC_SUBJECTS →
        pyContains (pyLower ((Gmail.headerDict msg.headers "Subject").getD ""))
          "transferencia" = false →
        (Gmail.headerDict msg.headers "Subject").getD "" ≠
          "Comprobante Pago Tarjeta" →
        (Gmail.headerDict msg.headers "Subject").getD "" ≠
          "Comprobante Pago Tarjeta Internacional" →
        Gmail.step ext msg = .ok none) ∧
    (∀ (ext : Ext) (auth : List String) (msg : Outlook.OutlookMsg),
        msg.senderAddress ∉ auth → Outlook.step ext auth msg = .ok none) ∧
    (∀ (ext : Ext) (auth : List String) (msg : Outlook.OutlookMsg)
        (raw content : String) (g : String × String),
        msg.body = some raw → ext.findBodyText raw = some content →
        senderRxFirst content = some g →
        (if g.1 = "" then g.2 else g.1) ∉ SENDER_EMAIL →
        Outlook.step ext auth msg = .ok none) ∧
    (∀ (ext : Ext) (msg : Outlook.OutlookMsg) (sender content : String),
        (msg.subject.data.drop 4).asString ∉ TC_SUBJECTS →
        pyContains (pyLower ((msg.subject.data.drop 4).asString))
          "transferencia" = false →
        (msg.subject.data.drop 4).asString ≠
          "Pago de Tarjeta de Crédito Nacional" →
        (msg.subject.data.drop 4).asString ≠
          "Pago de Tarjeta de Crédito Internacional" →
        Outlook.branch ext msg sender content = none) := by
  refine ⟨?_, ?_, ?_, ?_, ?_⟩
  · intro ext msg hs
    unfold Gmail.step
    dsimp only
    cases hp : Gmail.parse_sender ((Gmail.headerDict msg.headers "From").getD "") with
    | none => rfl
    | some s =>
      dsimp only
      rw [if_pos (Or.inl (hs s hp))]
  · intro ext msg s d html hs hgb hdec hTC htr hp1 hp2
    unfold Gmail.step
    dsimp only
    rw [hs]
    dsimp only
    by_cases hskip : s ∉ SENDER_EMAIL ∨
        (Gmail.headerDict msg.headers "Subject").getD "" =
          "Aviso de transferencia de fondos" ∨
        pyContains ((Gmail.headerDict msg.headers "Subject").getD "")
          "Transferencias de Fondos de" = true
    · rw [if_pos hskip]
    · rw [if_neg hskip]
      unfold Gmail.get_body_text
      rw [hgb]
      dsimp only
      rw [hdec]
      dsimp only
      rw [if_neg hTC, if_neg (by simp [htr]), if_neg hp1, if_neg hp2]
  · intro ext auth msg ha
    unfold Outlook.step
    rw [if_neg ha]
  · intro ext auth msg raw content g hb hf hs hsm
    unfold Outlook.step
    by_cases ha : msg.senderAddress ∈ auth
    · rw [if_pos ha, hb]
      dsimp only
      rw [hf]
      dsimp only
      rw [hs]
      dsimp only
      rw [if_neg hsm]
    · rw [if_neg ha]
  · intro ext msg sender content hTC htr hp1 hp2
    unfold Outlook.branch
    dsimp only
    rw [if_neg hTC, if_neg (by simp [htr]), if_neg (by
      intro hor
      rcases hor with h1 | h2
      · exact hp1 h1
      · exact hp2 h2)]

/-- C9 witness: a gmail message from a sender outside the allow-list is
skipped without an exception (its body is never touched). -/
theorem unrecognized_messages_skipped_example :
    Gmail.step ext0 msgC9w = .ok none := by
  apply unrecognized_messages_skipped.1 ext0 msgC9w
  intro s hs
  have h0 : Gmail.parse_sender ((Gmail.headerDict msgC9w.headers "From").getD "")
      = some "alguien@gmail.com" := by decide
  rw [h0] at hs
  injection hs with hs
  subst hs
  decide

/-- C9 counterexample: a gmail message from an allow-listed sender whose
subject matches no recognized shape still has its body extracted first, and
a payload with no text part makes that extraction raise, aborting the batch
instead of skipping the message silently. -/
theorem unrecognized_subject_with_bad_body_raises :
    "Hola" ∉ TC_SUBJECTS ∧
    pyContains (pyLower "Hola") "transferencia" = false ∧
    "Hola" ≠ "Comprobante Pago Tarjeta" ∧
    "Hola" ≠ "Comprobante Pago Tarjeta Internacional" ∧
    Gmail.email_to_dataframe ext0 [msgC9] = .error .typeError :=
  ⟨by decide, by decide, by decide, by decide, by decide⟩

end TMD
